import Mathlib

/-!
Verification development for the eva-desktop wake-word pipeline.

The definitions below are a shallow embedding of the Rust sources under
`src/src-tauri/src/` (mainly `porcupine_service.rs`, `lib.rs` and
`audio/config.rs`).  Pure functions become Lean functions; the stateful
controller and the worker loops become explicit state passing; machine
floats are modelled as rationals; fallible operations return `Except`.
External effects (keychain, environment, audio device, detection engine,
file system) are supplied as explicit environment records, so every call
site of the source code maps to a deterministic Lean function of those
inputs.
-/

namespace EvaDesktop

/-- Frame length required by the detection engine
(`PORCUPINE_FRAME_LENGTH` in `porcupine_service.rs`). -/
def PORCUPINE_FRAME_LENGTH : Nat := 512

/-- Sample rate required by the detection engine
(`PORCUPINE_SAMPLE_RATE` in `porcupine_service.rs`). -/
def PORCUPINE_SAMPLE_RATE : Nat := 16000

/-- Cooldown between accepted detections in seconds
(`COOLDOWN_DURATION_SECS` in `audio/config.rs`, and
`cooldown_duration = Duration::from_secs(2)` in `run_audio_processing_blocking`). -/
def cooldown_duration : ℚ := 2

/-- The error enum `WakeWordError` from `wake_word.rs`. -/
inductive WakeWordError where
  | porcupineInit (msg : String)
  | audioDevice (msg : String)
  | accessKey (msg : String)
  | resampling (msg : String)
  | alreadyListening
  | notListening
deriving DecidableEq, Repr

/-- The builtin keyword identifiers of the Porcupine crate that the service
can select (`BuiltinKeywords` uses in `create_porcupine`). -/
inductive BuiltinKeyword where
  | alexa
  | computer
  | jarvis
  | heyGoogle
  | okGoogle
  | picovoice
  | porcupine
deriving DecidableEq, Repr

/-- The keyword source handed to the Porcupine builder: either the custom
model file path or a builtin keyword. -/
inductive KeywordSource where
  | customModel (path : String)
  | builtin (k : BuiltinKeyword)
deriving DecidableEq, Repr

/-- Descriptor of a constructed detection engine instance
(what `PorcupineBuilder::...::init()` returns, as visible to this code). -/
structure PorcupineEngine where
  engine_access_key : String
  source : KeywordSource
deriving DecidableEq, Repr

/-- The `cpal::SampleFormat` cases distinguished by
`run_audio_processing_blocking` (F32, I16, U16, and everything else). -/
inductive CpalSampleFormat where
  | f32
  | i16
  | u16
  | other
deriving DecidableEq, Repr

/-- Persistent state of `PorcupineService` (`porcupine_service.rs` lines 19-23):
the shared running flag, the cached access key, and whether a stop sender for
a spawned worker is currently held. -/
structure ServiceState where
  is_listening : Bool
  cached_access_key : Option String
  stop_sender_present : Bool
deriving DecidableEq, Repr

/-- `PorcupineService::new()`. -/
def service_init : ServiceState :=
  { is_listening := false, cached_access_key := none, stop_sender_present := false }

/-- External inputs consumed during one `start_listening` call and the
Starting phase of the worker it spawns.  Each field models the outcome of
one external probe or fallible effect, in the order the source performs them. -/
structure StartEnv where
  keychain_key : Option String
  env_access_key : Option String
  custom_model_exists : Bool
  env_keyword : Option String
  engine_init_ok : Bool
  device_available : Bool
  device_name_ok : Bool
  config_ok : Bool
  input_sample_rate : Nat
  num_channels : Nat
  sample_format : CpalSampleFormat
  resampler_build_ok : Bool
  debug_enabled : Bool
  debug_dir_ok : Bool
  debug_writer_ok : Bool
  stream_build_ok : Bool
  play_ok : Bool
deriving DecidableEq, Repr

/-- Resource-allocation counters used to state the no-leak claims: how many
credential resolutions, engine constructions, stream constructions and worker
spawns a code path performed. -/
structure Alloc where
  credential_resolutions : Nat
  engines_constructed : Nat
  streams_created : Nat
  workers_spawned : Nat
deriving DecidableEq, Repr

/-- The empty allocation record. -/
def Alloc.zero : Alloc := ⟨0, 0, 0, 0⟩

/-- Pointwise sum of allocation counters. -/
def Alloc.add (a b : Alloc) : Alloc :=
  ⟨a.credential_resolutions + b.credential_resolutions,
   a.engines_constructed + b.engines_constructed,
   a.streams_created + b.streams_created,
   a.workers_spawned + b.workers_spawned⟩

/-- Models `PorcupineService::get_access_key`: return the cached key if
present, else try the keychain (caching on success), else the
`PV_ACCESS_KEY` environment variable (caching on success; the write-back to
the keychain only logs on failure), else fail with `AccessKey`. -/
def get_access_key (s : ServiceState) (env : StartEnv) :
    Except WakeWordError (String × ServiceState) :=
  match s.cached_access_key with
  | some key => .ok (key, s)
  | none =>
    match env.keychain_key with
    | some key => .ok (key, { s with cached_access_key := some key })
    | none =>
      match env.env_access_key with
      | some key => .ok (key, { s with cached_access_key := some key })
      | none => .error (.accessKey
          "No access key found. Please set PV_ACCESS_KEY environment variable or store in keychain")

/-- The builtin keyword chosen by `create_porcupine` when no custom model
file exists (`porcupine_service.rs` lines 72-85): an unrecognized
`WAKE_WORD_KEYWORD` value falls back to `BuiltinKeywords::Porcupine`, an
unset variable selects `BuiltinKeywords::Computer`. -/
def builtin_keyword_choice (env_keyword : Option String) : BuiltinKeyword :=
  match env_keyword with
  | some v =>
    match v with
    | "alexa" => .alexa
    | "computer" => .computer
    | "jarvis" => .jarvis
    | "hey-google" => .heyGoogle
    | "ok-google" => .okGoogle
    | "picovoice" => .picovoice
    | _ => .porcupine
  | none => .computer

/-- Models `PorcupineService::create_porcupine`: resolve the access key,
pick the keyword source (custom model file first, then the environment
override), and construct the engine.  The returned `Alloc` counts the
credential resolution and, on success, the engine construction. -/
def create_porcupine (s : ServiceState) (env : StartEnv) :
    Except WakeWordError PorcupineEngine × ServiceState × Alloc :=
  match get_access_key s env with
  | .error e => (.error e, s, ⟨1, 0, 0, 0⟩)
  | .ok (key, s') =>
    let source : KeywordSource :=
      if env.custom_model_exists then .customModel "models/Hi-Eva.ppn"
      else .builtin (builtin_keyword_choice env.env_keyword)
    if env.engine_init_ok then
      (.ok ⟨key, source⟩, s', ⟨1, 1, 0, 0⟩)
    else
      (.error (.porcupineInit "engine construction failed"), s', ⟨1, 0, 0, 0⟩)

/-- Parameters of the `SincInterpolationParameters` literal built in
`run_audio_processing_blocking` (lines 253-259). -/
structure SincParams where
  sinc_len : Nat
  f_cutoff : ℚ
  oversampling_factor : Nat
deriving DecidableEq, Repr

/-- The concrete interpolation parameters used by the source. -/
def sinc_interpolation_params : SincParams :=
  { sinc_len := 256, f_cutoff := 95 / 100, oversampling_factor := 256 }

/-- Descriptor of a constructed `SincFixedIn` resampler
(the arguments passed to `SincFixedIn::new` in lines 261-267). -/
structure ResamplerCfg where
  ratio_num : Nat
  ratio_den : Nat
  params : SincParams
  chunk_size : Nat
  nbr_channels : Nat
deriving DecidableEq, Repr

/-- Models the resampler setup in `run_audio_processing_blocking`
(lines 250-271): a sinc filter is constructed only when the device rate
differs from 16000 Hz; at 16000 Hz no resampler object exists at all. -/
def make_resampler (env : StartEnv) : Except WakeWordError (Option ResamplerCfg) :=
  if env.input_sample_rate ≠ PORCUPINE_SAMPLE_RATE then
    if env.resampler_build_ok then
      .ok (some
        { ratio_num := PORCUPINE_SAMPLE_RATE
          ratio_den := env.input_sample_rate
          params := sinc_interpolation_params
          chunk_size := PORCUPINE_FRAME_LENGTH
          nbr_channels := env.num_channels })
    else .error (.resampling "Failed to create resampler")
  else .ok none

/-- Models the Starting phase of `run_audio_processing_blocking`
(lines 196-320), from device enumeration up to (and including)
`stream.play()`, in source order: device lookup, device name, default input
config, resampler construction, debug-recording setup, stream construction
(dispatching on the sample format), stream playback.  Returns the resampler
decision on success, the first error otherwise, plus allocation counters
(the stream counts as created once `build_input_stream` succeeds). -/
def worker_start_phase (env : StartEnv) :
    Except WakeWordError (Option ResamplerCfg) × Alloc :=
  if ¬ env.device_available then
    (.error (.audioDevice "No input device available"), Alloc.zero)
  else if ¬ env.device_name_ok then
    (.error (.audioDevice "Failed to get device name"), Alloc.zero)
  else if ¬ env.config_ok then
    (.error (.audioDevice "Failed to get default input config"), Alloc.zero)
  else
    match make_resampler env with
    | .error e => (.error e, Alloc.zero)
    | .ok rs =>
      if env.debug_enabled ∧ ¬ env.debug_dir_ok then
        (.error (.audioDevice "Failed to create debug directory"), Alloc.zero)
      else if env.debug_enabled ∧ ¬ env.debug_writer_ok then
        (.error (.audioDevice "Failed to create WAV writer"), Alloc.zero)
      else
        match env.sample_format with
        | .other => (.error (.audioDevice "Unsupported sample format"), Alloc.zero)
        | _ =>
          if ¬ env.stream_build_ok then
            (.error (.audioDevice "Failed to build input stream"), Alloc.zero)
          else if ¬ env.play_ok then
            (.error (.audioDevice "Failed to start audio stream"), ⟨0, 0, 1, 0⟩)
          else
            (.ok rs, ⟨0, 0, 1, 0⟩)

instance {ε α : Type _} [DecidableEq ε] [DecidableEq α] : DecidableEq (Except ε α) := fun a b =>
  match a, b with
  | .ok x, .ok y =>
    if h : x = y then .isTrue (by rw [h]) else .isFalse (by intro hh; cases hh; exact h rfl)
  | .ok _, .error _ => .isFalse (by intro h; cases h)
  | .error _, .ok _ => .isFalse (by intro h; cases h)
  | .error x, .error y =>
    if h : x = y then .isTrue (by rw [h]) else .isFalse (by intro hh; cases hh; exact h rfl)

/-- Combined observable outcome of one `start_listening` call together with
the Starting phase of the worker it spawned (if any). -/
structure StartResult where
  ret : Except WakeWordError Unit
  state : ServiceState
  spawned : Bool
  alloc : Alloc
  worker_err : Option WakeWordError
  flag_after_worker : Bool
deriving DecidableEq, Repr

/-- Models `PorcupineService::start_listening` (lines 165-188) composed with
the spawned worker's Starting phase.  The source checks the running flag
first, then constructs the engine, then installs the stop sender, sets the
flag to true and spawns `run_audio_processing_blocking`.  A failure inside
the worker's Starting phase returns early through `?`, which skips the
`is_listening.store(false)` at the end of the worker, so the flag keeps the
value the controller gave it (`flag_after_worker`). -/
def start_listening (s : ServiceState) (env : StartEnv) : StartResult :=
  if s.is_listening then
    { ret := .error .alreadyListening, state := s, spawned := false
      alloc := Alloc.zero, worker_err := none, flag_after_worker := s.is_listening }
  else
    match create_porcupine s env with
    | (.error e, s', a) =>
      { ret := .error e, state := s', spawned := false
        alloc := a, worker_err := none, flag_after_worker := s'.is_listening }
    | (.ok _, s', a) =>
      let s'' : ServiceState := { s' with stop_sender_present := true, is_listening := true }
      match worker_start_phase env with
      | (.error e, wa) =>
        { ret := .ok (), state := s''
          spawned := true
          alloc := (a.add wa).add ⟨0, 0, 0, 1⟩
          worker_err := some e
          flag_after_worker := true }
      | (.ok _, wa) =>
        { ret := .ok (), state := s''
          spawned := true
          alloc := (a.add wa).add ⟨0, 0, 0, 1⟩
          worker_err := none
          flag_after_worker := true }

/-- Models `PorcupineService::stop_listening` (lines 569-583): error with
`NotListening` when the flag is clear, otherwise clear the flag and consume
the stop sender (send errors are ignored). -/
def stop_listening (s : ServiceState) : Except WakeWordError Unit × ServiceState :=
  if ¬ s.is_listening then (.error .notListening, s)
  else (.ok (), { s with is_listening := false, stop_sender_present := false })

/-- Models `Drop for PorcupineService` (lines 591-598): force the flag false
and consume the stop sender. -/
def drop_service (s : ServiceState) : ServiceState :=
  { s with is_listening := false, stop_sender_present := false }

/-- Clearing the running flag (`is_listening.store(false, ...)`). -/
def clear_running_flag (s : ServiceState) : ServiceState :=
  { s with is_listening := false }

/-! ## Capture callback (`create_audio_stream`, lines 466-566)

Device samples are modelled after cpal's conversion to `f32`, i.e. as
rationals in place of floats; the per-format integer normalization is
performed by the cpal crate itself and is outside this repository. -/

/-- Truncation toward zero, the rounding used by Rust `as` casts from float
to integer (the value is already clamped into the representable range, so
the cast's saturation never engages). -/
def trunc_toward_zero (q : ℚ) : ℤ :=
  if 0 ≤ q then ⌊q⌋ else ⌈q⌉

/-- The clamp in `sample.clamp(-1.0, 1.0)`. -/
def clamp_unit (x : ℚ) : ℚ := max (-1) (min 1 x)

/-- Models the per-sample quantization of a completed frame
(line 538: `(sample.clamp(-1.0, 1.0) * i16::MAX as f32) as i16`). -/
def quantize (x : ℚ) : ℤ :=
  trunc_toward_zero (clamp_unit x * 32767)

/-- Channel-0 selection over an interleaved stereo buffer: models
`samples.chunks(2).map(|chunk| chunk[0])` (line 509); a trailing odd chunk
has length 1 and its element 0 is that sample. -/
def take_channel0 : List ℚ → List ℚ
  | [] => []
  | [x] => [x]
  | x :: _ :: rest => x :: take_channel0 rest

/-- The mono down-mix step of the callback (lines 507-512): only
`channels == 2` selects channel 0; every other channel count passes the
interleaved buffer through unchanged. -/
def to_mono (channels : Nat) (samples : List ℚ) : List ℚ :=
  if channels = 2 then take_channel0 samples else samples

/-- The resampling step of the callback (lines 514-528): the sinc filter
(abstracted here as the function `sinc`, since its numerics live in the
rubato crate) is applied only when a resampler was constructed; with no
resampler the mono samples pass through untouched. -/
def resample_stage (rs : Option ResamplerCfg) (sinc : List ℚ → List ℚ)
    (mono : List ℚ) : List ℚ :=
  match rs with
  | some _ => sinc mono
  | none => mono

/-- The frame-completion loop of the callback (lines 533-552): while the
buffer holds at least `PORCUPINE_FRAME_LENGTH` samples, drain the first
`PORCUPINE_FRAME_LENGTH` of them as a window and send its quantized form;
a failed send (receiver gone) logs once and returns from the callback at
once, abandoning the loop.  Structural recursion on a fuel argument; any
fuel of at least the buffer length computes the loop's fixpoint.  Returns
(remaining buffer, successfully sent float windows, send attempts,
failed-send log count). -/
def drain_loop (alive : Bool) : Nat → List ℚ → List ℚ × List (List ℚ) × Nat × Nat
  | 0, buf => (buf, [], 0, 0)
  | fuel + 1, buf =>
    if PORCUPINE_FRAME_LENGTH ≤ buf.length then
      if alive then
        let r := drain_loop alive fuel (buf.drop PORCUPINE_FRAME_LENGTH)
        (r.1, buf.take PORCUPINE_FRAME_LENGTH :: r.2.1, r.2.2.1 + 1, r.2.2.2)
      else
        (buf.drop PORCUPINE_FRAME_LENGTH, [], 1, 1)
    else (buf, [], 0, 0)

/-- The frame-completion loop at its natural fuel. -/
def drain_frames (alive : Bool) (buf : List ℚ) : List ℚ × List (List ℚ) × Nat × Nat :=
  drain_loop alive buf.length buf

/-- Closure state captured by the audio callback (lines 478-480). -/
structure CbState where
  audio_buffer : List ℚ
  callback_count : Nat
  total_samples_received : Nat
deriving DecidableEq, Repr

/-- Initial closure state of a fresh stream. -/
def cb_init : CbState := { audio_buffer := [], callback_count := 0, total_samples_received := 0 }

/-- Observable outcome of one callback invocation. -/
structure CbOutcome where
  state : CbState
  sent : List (List ℤ)
  send_attempts : Nat
  send_fail_logs : Nat
  processed : Bool
deriving DecidableEq, Repr

/-- Models one invocation of the capture callback (lines 484-553): the
diagnostic counters are bumped first, then the running flag gates all work;
when listening, the data is converted, down-mixed, resampled, buffered, and
completed frames are quantized and sent.  `processed` records whether the
invocation went past the running-flag check. -/
def callback_invoke (is_listening receiver_alive : Bool) (channels : Nat)
    (rs : Option ResamplerCfg) (sinc : List ℚ → List ℚ)
    (st : CbState) (data : List ℚ) : CbOutcome :=
  let st' : CbState :=
    { st with callback_count := st.callback_count + 1
              total_samples_received := st.total_samples_received + data.length }
  if ¬ is_listening then
    { state := st', sent := [], send_attempts := 0, send_fail_logs := 0, processed := false }
  else
    let mono := to_mono channels data
    let resampled := resample_stage rs sinc mono
    let r := drain_frames receiver_alive (st'.audio_buffer ++ resampled)
    { state := { st' with audio_buffer := r.1 }
      sent := r.2.1.map (List.map quantize)
      send_attempts := r.2.2.1
      send_fail_logs := r.2.2.2
      processed := true }

/-- A sequence of callback invocations, accumulating sent frames, send
attempts and failed-send logs. -/
def callback_run (is_listening receiver_alive : Bool) (channels : Nat)
    (rs : Option ResamplerCfg) (sinc : List ℚ → List ℚ) :
    CbState → List (List ℚ) → CbState × List (List ℤ) × Nat × Nat
  | st, [] => (st, [], 0, 0)
  | st, d :: ds =>
    let o := callback_invoke is_listening receiver_alive channels rs sinc st d
    let r := callback_run is_listening receiver_alive channels rs sinc o.state ds
    (r.1, o.sent ++ r.2.1, o.send_attempts + r.2.2.1, o.send_fail_logs + r.2.2.2)

/-! ## Detection loop (`run_audio_processing_blocking`, lines 322-463) -/

/-- Cooldown/debounce state of the Listening loop (the local
`last_detection_time`). -/
structure DetectionState where
  last_detection_time : ℚ
deriving DecidableEq, Repr

/-- The loop initializes `last_detection_time` to ten seconds before the
loop start so the first detection is allowed (line 326). -/
def detection_state_init (loop_start : ℚ) : DetectionState :=
  { last_detection_time := loop_start - 10 }

/-- Cooldown handling for one engine result (lines 366-419): a non-negative
keyword index within the cooldown window is suppressed without touching the
timestamp (`continue`); outside the window the timestamp is updated and an
event is emitted.  Returns the new state and whether an event is emitted. -/
def process_detection (st : DetectionState) (now : ℚ) (keyword_index : ℤ) :
    DetectionState × Bool :=
  if 0 ≤ keyword_index then
    if now - st.last_detection_time < cooldown_duration then (st, false)
    else ({ last_detection_time := now }, true)
  else (st, false)

/-- The wake-word label placed in emitted detection events
(`porcupine_service.rs` lines 390-407): the custom model maps to "Hi Eva";
otherwise a recognized `WAKE_WORD_KEYWORD` value maps to its display name,
an unset variable maps to "Computer", and a set but unrecognized value
falls back to "Porcupine". -/
def detection_event_keyword (custom_model_exists : Bool) (env_keyword : Option String) :
    String :=
  if custom_model_exists then "Hi Eva"
  else
    match env_keyword with
    | some v =>
      match v with
      | "alexa" => "Alexa"
      | "computer" => "Computer"
      | "jarvis" => "Jarvis"
      | "hey-google" => "Hey Google"
      | "ok-google" => "Ok Google"
      | "picovoice" => "Picovoice"
      | _ => "Porcupine"
    | none => "Computer"

/-- Models the `get_current_wake_word` Tauri command (`lib.rs` lines
240-266): the custom model maps to "Hi Eva"; otherwise a recognized
`WAKE_WORD_KEYWORD` value (here including "porcupine") maps to its display
name, and an unrecognized or unset value falls back to "Computer". -/
def get_current_wake_word (custom_model_exists : Bool) (env_keyword : Option String) :
    String :=
  if custom_model_exists then "Hi Eva"
  else
    match env_keyword with
    | some v =>
      match v with
      | "alexa" => "Alexa"
      | "computer" => "Computer"
      | "jarvis" => "Jarvis"
      | "hey-google" => "Hey Google"
      | "ok-google" => "Ok Google"
      | "picovoice" => "Picovoice"
      | "porcupine" => "Porcupine"
      | _ => "Computer"
    | none => "Computer"

/-- Models `WakeWordKeyword::from_env` (`audio/config.rs` lines 68-83),
returned as its `as_str()` display name: like `get_current_wake_word`, the
fallback for unrecognized values is "Computer". -/
def wake_word_keyword_from_env (custom_model_exists : Bool) (env_keyword : Option String) :
    String :=
  if custom_model_exists then "Hi Eva"
  else
    match env_keyword with
    | some v =>
      match v with
      | "alexa" => "Alexa"
      | "computer" => "Computer"
      | "jarvis" => "Jarvis"
      | "hey-google" => "Hey Google"
      | "ok-google" => "Ok Google"
      | "picovoice" => "Picovoice"
      | "porcupine" => "Porcupine"
      | _ => "Computer"
    | none => "Computer"

/-- Models one `writer.write_sample` pass over a frame (lines 348-354): the
`io_fail` oracle says whether the n-th write attempt of the session fails;
a failed write logs an error and breaks out of the per-sample loop (the
failing sample and the rest of the frame are not written).  Returns the
samples actually appended, the next attempt index, and whether a failure
was logged. -/
def write_frame (io_fail : Nat → Bool) (attempt : Nat) :
    List ℤ → List ℤ × Nat × Bool
  | [] => ([], attempt, false)
  | s :: rest =>
    if io_fail attempt then ([], attempt + 1, true)
    else
      let r := write_frame io_fail (attempt + 1) rest
      (s :: r.1, r.2.1, r.2.2)

/-- One receive step of the Listening loop: every iteration first polls the
one-shot stop channel (`stop_rx.try_recv()`, line 332), then waits on the
frame channel with a 100 ms timeout (line 338). -/
inductive LoopInput where
  | stop
  | frame (f : List ℤ) (now : ℚ) (engine_result : Except String ℤ)
  | timeout
  | disconnect
deriving Repr

/-- Observable behavior of a Listening-loop run. -/
structure LoopOutcome where
  emitted : List (String × ℚ)
  written : List ℤ
  processed : List (List ℤ)
  write_error_logs : Nat
deriving DecidableEq, Repr

/-- Models the Listening loop of `run_audio_processing_blocking`
(lines 330-449).  Per iteration: a pending stop signal or a disconnected
channel breaks the loop (remaining queued inputs are never looked at); a
timeout loops; a received frame is first mirrored to the debug recording
when one is active (a write failure logs and only breaks the per-sample
loop; the writer stays installed), then handed to the engine, whose error
is logged and skipped and whose non-negative index goes through the
cooldown gate of `process_detection`. -/
def listen_loop (io_fail : Nat → Bool) (debug_active : Bool)
    (custom_model_exists : Bool) (env_keyword : Option String) :
    DetectionState → Nat → List LoopInput → LoopOutcome
  | _, _, [] => { emitted := [], written := [], processed := [], write_error_logs := 0 }
  | _, _, .stop :: _ => { emitted := [], written := [], processed := [], write_error_logs := 0 }
  | _, _, .disconnect :: _ =>
    { emitted := [], written := [], processed := [], write_error_logs := 0 }
  | st, att, .timeout :: rest =>
    listen_loop io_fail debug_active custom_model_exists env_keyword st att rest
  | st, att, .frame f now res :: rest =>
    let w : List ℤ × Nat × Bool :=
      if debug_active then write_frame io_fail att f else ([], att, false)
    let logs : Nat := if w.2.2 then 1 else 0
    match res with
    | .error _ =>
      let r := listen_loop io_fail debug_active custom_model_exists env_keyword st w.2.1 rest
      { emitted := r.emitted
        written := w.1 ++ r.written
        processed := f :: r.processed
        write_error_logs := logs + r.write_error_logs }
    | .ok k =>
      let p := process_detection st now k
      let r := listen_loop io_fail debug_active custom_model_exists env_keyword p.1 w.2.1 rest
      { emitted :=
          (if p.2 then [(detection_event_keyword custom_model_exists env_keyword, now)]
           else []) ++ r.emitted
        written := w.1 ++ r.written
        processed := f :: r.processed
        write_error_logs := logs + r.write_error_logs }

/-- Folding the frame-completion loop over successive resampled chunks of a
session, starting from a given rolling buffer: each call appends its chunk
and drains completed windows, exactly as successive callback invocations do
with a live receiver. -/
def framer_session : List ℚ → List (List ℚ) → List (List ℚ) × List ℚ
  | buf, [] => ([], buf)
  | buf, c :: cs =>
    let r := drain_frames true (buf ++ c)
    let rest := framer_session r.1 cs
    (r.2.1 ++ rest.1, rest.2)

/-- The times of the loop inputs whose engine result is a non-negative
keyword index (the raw matches, before the cooldown gate). -/
def loop_match_times (inputs : List LoopInput) : List ℚ :=
  inputs.filterMap fun i =>
    match i with
    | .frame _ now (.ok k) => if 0 ≤ k then some now else none
    | _ => none

/-- Interleaving of a left and right channel into one stereo buffer
(`[L0, R0, L1, R1, ...]`), used to state the down-mix property. -/
def interleave : List ℚ → List ℚ → List ℚ
  | [], ys => ys
  | x :: xs, [] => x :: xs
  | x :: xs, y :: ys => x :: y :: interleave xs ys

/-- A start environment in which everything needed before the spawn is fine
(an access key in the environment variable, engine construction succeeds)
but `cpal::default_host().default_input_device()` finds no input device. -/
def env_no_device : StartEnv :=
  { keychain_key := none
    env_access_key := some "k"
    custom_model_exists := false
    env_keyword := none
    engine_init_ok := true
    device_available := false
    device_name_ok := true
    config_ok := true
    input_sample_rate := 16000
    num_channels := 1
    sample_format := .f32
    resampler_build_ok := true
    debug_enabled := false
    debug_dir_ok := true
    debug_writer_ok := true
    stream_build_ok := true
    play_ok := true }

/-- A start environment in which every probe and fallible effect succeeds:
a 16 kHz mono F32 device, an access key in the environment variable, debug
recording disabled. -/
def env_all_ok : StartEnv :=
  { env_no_device with device_available := true }

/-! ## Lemmas about the frame-completion loop -/

/-- With a live receiver and enough fuel, the frame-completion loop yields
only full windows, loses no sample, and stops only when fewer than a full
frame remains buffered. -/
theorem drain_loop_alive_spec :
    ∀ (fuel : Nat) (buf : List ℚ), buf.length ≤ fuel →
      (∀ w ∈ (drain_loop true fuel buf).2.1, w.length = PORCUPINE_FRAME_LENGTH) ∧
      ((drain_loop true fuel buf).2.1).flatten ++ (drain_loop true fuel buf).1 = buf ∧
      (drain_loop true fuel buf).1.length < PORCUPINE_FRAME_LENGTH := by
  intro fuel
  induction fuel with
  | zero =>
    intro buf h
    have hb : buf = [] := List.eq_nil_of_length_eq_zero (Nat.le_zero.mp h)
    subst hb
    simp [drain_loop, PORCUPINE_FRAME_LENGTH]
  | succ n ih =>
    intro buf h
    by_cases hlen : PORCUPINE_FRAME_LENGTH ≤ buf.length
    · have hdrop : (buf.drop PORCUPINE_FRAME_LENGTH).length ≤ n := by
        rw [List.length_drop]
        have : 0 < PORCUPINE_FRAME_LENGTH := by norm_num [PORCUPINE_FRAME_LENGTH]
        omega
      obtain ⟨ih1, ih2, ih3⟩ := ih (buf.drop PORCUPINE_FRAME_LENGTH) hdrop
      simp only [drain_loop, if_pos hlen, if_true]
      refine ⟨?_, ?_, ih3⟩
      · intro w hw
        rcases List.mem_cons.mp hw with hw | hw
        · subst hw
          simpa [List.length_take] using Nat.min_eq_left hlen
        · exact ih1 w hw
      · simp [List.flatten_cons, List.append_assoc, ih2, List.take_append_drop]
    · simp only [drain_loop, if_neg hlen]
      exact ⟨by simp, by simp, Nat.lt_of_not_le hlen⟩

/-- `drain_loop_alive_spec` at the natural fuel used by the callback. -/
theorem drain_frames_alive_spec (buf : List ℚ) :
    (∀ w ∈ (drain_frames true buf).2.1, w.length = PORCUPINE_FRAME_LENGTH) ∧
    ((drain_frames true buf).2.1).flatten ++ (drain_frames true buf).1 = buf ∧
    (drain_frames true buf).1.length < PORCUPINE_FRAME_LENGTH :=
  drain_loop_alive_spec buf.length buf le_rfl

/-- With the receiver gone, the frame-completion loop sends nothing, makes
at most one send attempt, and logs exactly one failure per attempt made. -/
theorem drain_loop_dead_spec (fuel : Nat) (buf : List ℚ) :
    (drain_loop false fuel buf).2.1 = [] ∧
    (drain_loop false fuel buf).2.2.1 ≤ 1 ∧
    (drain_loop false fuel buf).2.2.2 = (drain_loop false fuel buf).2.2.1 := by
  cases fuel with
  | zero => simp [drain_loop]
  | succ n =>
    by_cases hlen : PORCUPINE_FRAME_LENGTH ≤ buf.length
    · simp [drain_loop, if_pos hlen]
    · simp [drain_loop, if_neg hlen]

/-- The session-level fold of the frame-completion loop yields only full
windows, reproduces the whole input when its yields are concatenated with
the final tail, and keeps the tail short provided it started short. -/
theorem framer_session_spec :
    ∀ (chunks : List (List ℚ)) (buf : List ℚ),
      (∀ w ∈ (framer_session buf chunks).1, w.length = PORCUPINE_FRAME_LENGTH) ∧
      ((framer_session buf chunks).1).flatten ++ (framer_session buf chunks).2
        = buf ++ chunks.flatten ∧
      (buf.length < PORCUPINE_FRAME_LENGTH →
        (framer_session buf chunks).2.length < PORCUPINE_FRAME_LENGTH) := by
  intro chunks
  induction chunks with
  | nil => intro buf; simp [framer_session]
  | cons c cs ih =>
    intro buf
    obtain ⟨h1, h2, h3⟩ := drain_frames_alive_spec (buf ++ c)
    obtain ⟨ih1, ih2, ih3⟩ := ih (drain_frames true (buf ++ c)).1
    refine ⟨?_, ?_, ?_⟩
    · intro w hw
      simp only [framer_session] at hw
      rcases List.mem_append.mp hw with hw | hw
      · exact h1 w hw
      · exact ih1 w hw
    · simp only [framer_session]
      rw [List.flatten_append, List.append_assoc, ih2, ← List.append_assoc, h2]
      simp [List.append_assoc]
    · intro _
      simpa [framer_session] using ih3 h3

/-- Quantized samples always lie in the positive 16-bit magnitude range. -/
theorem quantize_range (x : ℚ) : -32767 ≤ quantize x ∧ quantize x ≤ 32767 := by
  unfold quantize trunc_toward_zero clamp_unit
  have h1 : (-1 : ℚ) ≤ max (-1) (min 1 x) := le_max_left _ _
  have h2 : max (-1 : ℚ) (min 1 x) ≤ 1 := max_le (by norm_num) (min_le_left _ _)
  have hlo : (-32767 : ℚ) ≤ max (-1) (min 1 x) * 32767 := by nlinarith
  have hhi : max (-1 : ℚ) (min 1 x) * 32767 ≤ 32767 := by nlinarith
  split
  case isTrue h =>
    constructor
    · have hq : (0 : ℤ) ≤ ⌊max (-1 : ℚ) (min 1 x) * 32767⌋ := Int.floor_nonneg.mpr h
      omega
    · have hq := Int.floor_le_floor hhi
      simpa using hq
  case isFalse h =>
    constructor
    · have hq := Int.ceil_le_ceil hlo
      simpa using hq
    · have hq : ⌈max (-1 : ℚ) (min 1 x) * 32767⌉ ≤ (0 : ℤ) :=
        Int.ceil_le.mpr (by exact_mod_cast le_of_lt (lt_of_not_le h))
      omega

/-- C7: for every rolling buffer and every batch of appended resampled
samples, the Framer yields only windows of exactly 512 samples, drains
whenever at least 512 samples are buffered (the remaining tail is shorter
than 512), and loses no sample: the yielded windows concatenated in order,
followed by the remaining tail, reproduce the buffered stream, both per
call and across a whole session; each yielded window is quantized to
16-bit PCM by clamping every sample to [-1, 1] and scaling by the maximum
positive 16-bit magnitude 32767, which lands every quantized sample in
[-32767, 32767]. -/
theorem framer_full_frames_no_loss_quantized :
    (∀ buffer new : List ℚ,
      (∀ w ∈ (drain_frames true (buffer ++ new)).2.1,
        w.length = PORCUPINE_FRAME_LENGTH) ∧
      ((drain_frames true (buffer ++ new)).2.1).flatten
          ++ (drain_frames true (buffer ++ new)).1 = buffer ++ new ∧
      (drain_frames true (buffer ++ new)).1.length < PORCUPINE_FRAME_LENGTH) ∧
    (∀ chunks : List (List ℚ),
      (∀ w ∈ (framer_session [] chunks).1, w.length = PORCUPINE_FRAME_LENGTH) ∧
      ((framer_session [] chunks).1).flatten ++ (framer_session [] chunks).2
        = chunks.flatten ∧
      (framer_session [] chunks).2.length < PORCUPINE_FRAME_LENGTH) ∧
    (∀ (st : CbState) (ch : Nat) (rs : Option ResamplerCfg)
        (sinc : List ℚ → List ℚ) (data : List ℚ),
      (callback_invoke true true ch rs sinc st data).sent
        = ((drain_frames true
            (st.audio_buffer ++ resample_stage rs sinc (to_mono ch data))).2.1).map
              (List.map quantize)) ∧
    (∀ x : ℚ, quantize x = trunc_toward_zero (max (-1) (min 1 x) * 32767) ∧
      -32767 ≤ quantize x ∧ quantize x ≤ 32767) := by
  refine ⟨fun buffer new => drain_frames_alive_spec (buffer ++ new), ?_, ?_, ?_⟩
  · intro chunks
    obtain ⟨h1, h2, h3⟩ := framer_session_spec chunks []
    exact ⟨h1, by simpa using h2, h3 (by norm_num [PORCUPINE_FRAME_LENGTH])⟩
  · intro st ch rs sinc data
    rfl
  · intro x
    exact ⟨rfl, quantize_range x⟩

/-- C5 (amended): with the receiver gone, a callback invocation that is
still listening performs the full conversion path, sends no frame, makes at
most one send attempt, logs exactly one failure per attempt made, and
returns normally; the very next invocation runs the full path again (there
is no latch disabling it). -/
theorem callback_send_failure_aborts_invocation_only :
    ∀ (ch : Nat) (rs : Option ResamplerCfg) (sinc : List ℚ → List ℚ)
      (st : CbState) (data : List ℚ),
      (callback_invoke true false ch rs sinc st data).sent = [] ∧
      (callback_invoke true false ch rs sinc st data).send_attempts ≤ 1 ∧
      (callback_invoke true false ch rs sinc st data).send_fail_logs
        = (callback_invoke true false ch rs sinc st data).send_attempts ∧
      (callback_invoke true false ch rs sinc st data).processed = true := by
  intro ch rs sinc st data
  obtain ⟨h1, h2, h3⟩ :=
    drain_loop_dead_spec
      ((st.audio_buffer ++ resample_stage rs sinc (to_mono ch data)).length)
      (st.audio_buffer ++ resample_stage rs sinc (to_mono ch data))
  refine ⟨?_, ?_, ?_, rfl⟩
  · show ((drain_frames false
        (st.audio_buffer ++ resample_stage rs sinc (to_mono ch data))).2.1).map
          (List.map quantize) = []
    rw [drain_frames, h1]
    rfl
  · show (drain_frames false
        (st.audio_buffer ++ resample_stage rs sinc (to_mono ch data))).2.2.1 ≤ 1
    rw [drain_frames]
    exact h2
  · show (drain_frames false
          (st.audio_buffer ++ resample_stage rs sinc (to_mono ch data))).2.2.2
        = (drain_frames false
          (st.audio_buffer ++ resample_stage rs sinc (to_mono ch data))).2.2.1
    rw [drain_frames]
    exact h3

/-- C5 (counterexample): two consecutive callback invocations, each carrying
a full frame of samples while the receiver is gone, log the send failure
twice (not once), make two send attempts, and the second invocation still
performs the full conversion path — the claim that the callback becomes a
no-op for the remainder of the session after one failed send is false. -/
theorem callback_send_failure_counterexample :
    (callback_run true false 1 none id cb_init
      [List.replicate 512 0, List.replicate 512 0]).2.2.2 = 2 ∧
    (callback_run true false 1 none id cb_init
      [List.replicate 512 0, List.replicate 512 0]).2.2.1 = 2 ∧
    (callback_invoke true false 1 none id
      (callback_invoke true false 1 none id cb_init (List.replicate 512 0)).state
      (List.replicate 512 0)).processed = true := by
  set_option maxRecDepth 100000 in decide

/-- C9: when the device already runs at 16000 Hz, no sinc resampler is
constructed (`make_resampler` yields `none` without touching the filter
builder), and the resampling stage is the identity: the sample sequence
handed to the Framer — and hence the whole callback outcome — is
independent of the sinc filter and equals the converted mono input
exactly. -/
theorem passthrough_resampling_identity :
    (∀ env : StartEnv,
      make_resampler { env with input_sample_rate := PORCUPINE_SAMPLE_RATE }
        = .ok none) ∧
    (∀ (sinc : List ℚ → List ℚ) (mono : List ℚ),
      resample_stage none sinc mono = mono) ∧
    (∀ (alive : Bool) (ch : Nat) (sinc sinc' : List ℚ → List ℚ)
        (st : CbState) (data : List ℚ),
      callback_invoke true alive ch none sinc st data
        = callback_invoke true alive ch none sinc' st data) := by
  refine ⟨?_, fun _ _ => rfl, fun _ _ _ _ _ _ => rfl⟩
  intro env
  simp [make_resampler]

/-- Helper for C8: channel-0 selection of an interleaved stereo buffer made
of equally long left and right channels recovers the left channel. -/
theorem take_channel0_interleave :
    ∀ (L R : List ℚ), L.length = R.length →
      take_channel0 (interleave L R) = L := by
  intro L
  induction L with
  | nil =>
    intro R h
    have : R = [] := List.eq_nil_of_length_eq_zero h.symm
    subst this
    rfl
  | cons x xs ih =>
    intro R h
    cases R with
    | nil => simp at h
    | cons y ys =>
      simp only [interleave, take_channel0]
      rw [ih ys (by simpa using h)]

/-- C8 (counterexample): for a 3-channel interleaved frame `[c0, c1, c2]`
the callback's mono conversion returns all three samples unchanged, not the
channel-0 sequence `[c0]` — the claim that every channel count greater than
one is down-mixed by channel-0 selection is false; only exactly 2 channels
are. -/
theorem to_mono_multichannel_counterexample :
    to_mono 3 [1, 2, 3] = [1, 2, 3] ∧ ([1, 2, 3] : List ℚ) ≠ [1] := by
  exact ⟨rfl, by decide⟩

/-- C8 (amended): for 2-channel interleaved input the mono output is exactly
the channel-0 (left) sample of each frame, never an average; any channel
count other than 2 passes the interleaved buffer through unchanged. -/
theorem to_mono_stereo_takes_channel0 :
    (∀ (L R : List ℚ), L.length = R.length → to_mono 2 (interleave L R) = L) ∧
    (∀ (c : Nat) (samples : List ℚ), c ≠ 2 → to_mono c samples = samples) := by
  constructor
  · intro L R h
    simpa [to_mono] using take_channel0_interleave L R h
  · intro c samples hc
    simp [to_mono, hc]

/-- Witness for `to_mono_stereo_takes_channel0` at concrete channels. -/
theorem to_mono_stereo_takes_channel0_witness :
    to_mono 2 (interleave [1, 2] [3, 4]) = [1, 2] ∧ to_mono 1 [5, 6] = [5, 6] :=
  ⟨to_mono_stereo_takes_channel0.1 [1, 2] [3, 4] rfl,
   to_mono_stereo_takes_channel0.2 1 [5, 6] (by decide)⟩

/-- C10 (code bug): with no custom model and `WAKE_WORD_KEYWORD` set to an
unrecognized value, the `get_current_wake_word` command reports "Computer"
while the detection loop labels events "Porcupine" — and the engine is in
fact constructed with the builtin Porcupine keyword, so the event label is
the accurate one and the command misreports. -/
theorem wake_word_label_mismatch :
    get_current_wake_word false (some "hello") = "Computer" ∧
    detection_event_keyword false (some "hello") = "Porcupine" ∧
    builtin_keyword_choice (some "hello") = BuiltinKeyword.porcupine ∧
    wake_word_keyword_from_env false (some "hello") = "Computer" ∧
    get_current_wake_word false (some "hello")
      ≠ detection_event_keyword false (some "hello") := by
  refine ⟨rfl, rfl, rfl, rfl, ?_⟩
  decide

/-- C1 (code bug): when no input device is available (all other start-time
effects succeeding), `start_listening` itself returns Ok after spawning the
worker, the worker's Starting phase aborts with the device error, and the
early return skips the `is_listening.store(false)` of the normal exit: the
running flag stays true, so a subsequent `start_listening` is rejected with
`AlreadyListening` — the claim that every Starting-phase failure leaves the
controller Stopped with the flag false is violated by the code. -/
theorem start_failure_leaves_flag_set :
    (start_listening service_init env_no_device).ret = .ok () ∧
    (start_listening service_init env_no_device).spawned = true ∧
    (start_listening service_init env_no_device).worker_err
      = some (.audioDevice "No input device available") ∧
    (start_listening service_init env_no_device).flag_after_worker = true ∧
    (start_listening service_init env_no_device).state.is_listening = true ∧
    (start_listening (start_listening service_init env_no_device).state
        env_no_device).ret = .error .alreadyListening := by
  decide

/-- C3: a `start_listening` call on a controller whose running flag is set
returns `AlreadyListening` with the state unchanged, performs no credential
resolution, constructs no engine, creates no stream and spawns no worker;
consequently a successful start followed by a second start leaves exactly
one engine, one stream and one worker in existence, the second call
allocating nothing. -/
theorem double_start_rejected_without_allocation :
    (∀ (s : ServiceState) (env : StartEnv),
      start_listening { s with is_listening := true } env
        = { ret := .error .alreadyListening
            state := { s with is_listening := true }
            spawned := false
            alloc := Alloc.zero
            worker_err := none
            flag_after_worker := true }) ∧
    ((start_listening service_init env_all_ok).ret = .ok () ∧
      (start_listening service_init env_all_ok).alloc.engines_constructed = 1 ∧
      (start_listening service_init env_all_ok).alloc.streams_created = 1 ∧
      (start_listening service_init env_all_ok).alloc.workers_spawned = 1 ∧
      (start_listening (start_listening service_init env_all_ok).state
          env_all_ok).ret = .error .alreadyListening ∧
      (start_listening (start_listening service_init env_all_ok).state
          env_all_ok).alloc = Alloc.zero ∧
      (start_listening (start_listening service_init env_all_ok).state
          env_all_ok).spawned = false) := by
  constructor
  · intro s env
    rfl
  · decide

/-- C4: once the stop signal is pending, the very next Listening-loop
iteration breaks before receiving, so no event is emitted, nothing is
handed to the engine and nothing is written, even when completed frames
remain queued behind the signal; a callback invocation with the running
flag cleared does no processing (no conversion, no buffering, no send) and
leaves the audio buffer untouched; clearing the running flag is idempotent,
and both `stop_listening` (on a listening controller) and `Drop` clear it. -/
theorem post_stop_silence_and_idempotent_clear :
    (∀ (io_fail : Nat → Bool) (da cm : Bool) (ek : Option String)
        (st : DetectionState) (att : Nat) (queued : List LoopInput),
      listen_loop io_fail da cm ek st att (.stop :: queued)
        = { emitted := [], written := [], processed := [], write_error_logs := 0 }) ∧
    (∀ (ra : Bool) (ch : Nat) (rs : Option ResamplerCfg)
        (sinc : List ℚ → List ℚ) (st : CbState) (data : List ℚ),
      (callback_invoke false ra ch rs sinc st data).processed = false ∧
      (callback_invoke false ra ch rs sinc st data).sent = [] ∧
      (callback_invoke false ra ch rs sinc st data).send_attempts = 0 ∧
      (callback_invoke false ra ch rs sinc st data).state.audio_buffer
        = st.audio_buffer) ∧
    (∀ s : ServiceState,
      clear_running_flag (clear_running_flag s) = clear_running_flag s ∧
      (stop_listening { s with is_listening := true }).2.is_listening = false ∧
      (stop_listening { s with is_listening := true }).1 = .ok () ∧
      (drop_service s).is_listening = false) := by
  refine ⟨fun _ _ _ _ _ _ _ => rfl, fun _ _ _ _ _ _ => ⟨rfl, rfl, rfl, rfl⟩, ?_⟩
  intro s
  exact ⟨rfl, rfl, rfl, rfl⟩

/-- Every event emitted by the Listening loop carries a time at least one
cooldown after the entry state's last-detection timestamp. -/
theorem listen_loop_emitted_ge (io_fail : Nat → Bool) (da cm : Bool) (ek : Option String) :
    ∀ (inputs : List LoopInput) (st : DetectionState) (att : Nat),
      ∀ p ∈ (listen_loop io_fail da cm ek st att inputs).emitted,
        st.last_detection_time + cooldown_duration ≤ p.2 := by
  have hcpos : (0 : ℚ) ≤ cooldown_duration := by norm_num [cooldown_duration]
  intro inputs
  induction inputs with
  | nil => intro st att p hp; simp [listen_loop] at hp
  | cons i rest ih =>
    intro st att p hp
    cases i with
    | stop => simp [listen_loop] at hp
    | disconnect => simp [listen_loop] at hp
    | timeout =>
      simp only [listen_loop] at hp
      exact ih st att p hp
    | frame f now res =>
      cases res with
      | error e =>
        simp only [listen_loop] at hp
        exact ih st _ p hp
      | ok k =>
        simp only [listen_loop] at hp
        by_cases hk : 0 ≤ k
        · by_cases hcd : now - st.last_detection_time < cooldown_duration
          · have hpd : process_detection st now k = (st, false) := by
              rw [process_detection, if_pos hk, if_pos hcd]
            rw [hpd] at hp
            simp only at hp
            simp at hp
            exact ih st _ p hp
          · have hpd : process_detection st now k = (⟨now⟩, true) := by
              rw [process_detection, if_pos hk, if_neg hcd]
            rw [hpd] at hp
            have hnow : st.last_detection_time + cooldown_duration ≤ now := by
              have := not_lt.mp hcd
              linarith
            simp at hp
            rcases hp with hp | hp
            · rw [hp]
              simpa using hnow
            · have := ih ⟨now⟩ _ p hp
              simp only at this
              linarith
        · have hpd : process_detection st now k = (st, false) := by
            rw [process_detection, if_neg hk]
          rw [hpd] at hp
          simp at hp
          exact ih st _ p hp

/-- The events emitted by the Listening loop are spaced by at least the
cooldown. -/
theorem listen_loop_emitted_chain (io_fail : Nat → Bool) (da cm : Bool) (ek : Option String) :
    ∀ (inputs : List LoopInput) (st : DetectionState) (att : Nat),
      List.Chain' (fun a b : String × ℚ => a.2 + cooldown_duration ≤ b.2)
        (listen_loop io_fail da cm ek st att inputs).emitted := by
  intro inputs
  induction inputs with
  | nil => intro st att; simp [listen_loop]
  | cons i rest ih =>
    intro st att
    cases i with
    | stop => simp [listen_loop]
    | disconnect => simp [listen_loop]
    | timeout => simpa only [listen_loop] using ih st att
    | frame f now res =>
      cases res with
      | error e => simpa only [listen_loop] using ih st _
      | ok k =>
        simp only [listen_loop]
        by_cases hk : 0 ≤ k
        · by_cases hcd : now - st.last_detection_time < cooldown_duration
          · have hpd : process_detection st now k = (st, false) := by
              rw [process_detection, if_pos hk, if_pos hcd]
            rw [hpd]
            simpa using ih st _
          · have hpd : process_detection st now k = (⟨now⟩, true) := by
              rw [process_detection, if_pos hk, if_neg hcd]
            rw [hpd]
            simp only [if_true, List.singleton_append]
            refine List.chain'_cons'.mpr ⟨?_, ih ⟨now⟩ _⟩
            intro y hy
            have hym := List.mem_of_mem_head? hy
            have := listen_loop_emitted_ge io_fail da cm ek rest ⟨now⟩ _ y hym
            simpa using this
        · have hpd : process_detection st now k = (st, false) := by
            rw [process_detection, if_neg hk]
          rw [hpd]
          simpa using ih st _

/-- The times of the emitted events form a subsequence of the raw match
times. -/
theorem listen_loop_emitted_sublist (io_fail : Nat → Bool) (da cm : Bool) (ek : Option String) :
    ∀ (inputs : List LoopInput) (st : DetectionState) (att : Nat),
      List.Sublist ((listen_loop io_fail da cm ek st att inputs).emitted.map Prod.snd)
        (loop_match_times inputs) := by
  intro inputs
  induction inputs with
  | nil => intro st att; simp [listen_loop, loop_match_times]
  | cons i rest ih =>
    intro st att
    cases i with
    | stop => simp [listen_loop, loop_match_times]
    | disconnect => simp [listen_loop, loop_match_times]
    | timeout =>
      have hmt : loop_match_times (LoopInput.timeout :: rest) = loop_match_times rest := by
        simp [loop_match_times, List.filterMap_cons]
      rw [hmt]
      simpa only [listen_loop] using ih st att
    | frame f now res =>
      cases res with
      | error e =>
        have hmt : loop_match_times (LoopInput.frame f now (.error e) :: rest)
            = loop_match_times rest := by
          simp [loop_match_times, List.filterMap_cons]
        rw [hmt]
        simpa only [listen_loop] using ih st _
      | ok k =>
        by_cases hk : 0 ≤ k
        · have hmt : loop_match_times (LoopInput.frame f now (.ok k) :: rest)
              = now :: loop_match_times rest := by
            simp [loop_match_times, List.filterMap_cons, hk]
          rw [hmt]
          simp only [listen_loop]
          by_cases hcd : now - st.last_detection_time < cooldown_duration
          · have hpd : process_detection st now k = (st, false) := by
              rw [process_detection, if_pos hk, if_pos hcd]
            rw [hpd]
            exact List.Sublist.cons now (by simpa using ih st _)
          · have hpd : process_detection st now k = (⟨now⟩, true) := by
              rw [process_detection, if_pos hk, if_neg hcd]
            rw [hpd]
            simp only [if_true, List.singleton_append, List.map_cons]
            exact List.Sublist.cons₂ now (ih ⟨now⟩ _)
        · have hmt : loop_match_times (LoopInput.frame f now (.ok k) :: rest)
              = loop_match_times rest := by
            simp [loop_match_times, List.filterMap_cons, hk]
          rw [hmt]
          simp only [listen_loop]
          have hpd : process_detection st now k = (st, false) := by
            rw [process_detection, if_neg hk]
          rw [hpd]
          simpa using ih st _

/-- C2: the detection events emitted by the Listening loop form a
subsequence of the raw engine matches whose consecutive times are at least
the 2-second cooldown apart, and a match arriving strictly within the
cooldown window is dropped entirely, leaving the last-detection timestamp
unchanged. -/
theorem cooldown_debounce_subsequence :
    (∀ (io_fail : Nat → Bool) (da cm : Bool) (ek : Option String)
        (st : DetectionState) (att : Nat) (inputs : List LoopInput),
      List.Chain' (fun a b : String × ℚ => a.2 + cooldown_duration ≤ b.2)
        (listen_loop io_fail da cm ek st att inputs).emitted ∧
      List.Sublist ((listen_loop io_fail da cm ek st att inputs).emitted.map Prod.snd)
        (loop_match_times inputs)) ∧
    (∀ (st : DetectionState) (now : ℚ) (k : ℤ), 0 ≤ k →
      now - st.last_detection_time < cooldown_duration →
      process_detection st now k = (st, false)) := by
  refine ⟨fun io_fail da cm ek st att inputs =>
    ⟨listen_loop_emitted_chain io_fail da cm ek inputs st att,
     listen_loop_emitted_sublist io_fail da cm ek inputs st att⟩,
    fun st now k hk hcd => ?_⟩
  rw [process_detection, if_pos hk, if_pos hcd]

/-- Witness for `cooldown_debounce_subsequence` at concrete inputs. -/
theorem cooldown_debounce_subsequence_witness :
    process_detection ⟨0⟩ 1 0 = (⟨0⟩, false) ∧
    List.Chain' (fun a b : String × ℚ => a.2 + cooldown_duration ≤ b.2)
      (listen_loop (fun _ => false) false false none ⟨0⟩ 0
        [LoopInput.frame [] 1 (.ok 0)]).emitted :=
  ⟨cooldown_debounce_subsequence.2 ⟨0⟩ 1 0 (by norm_num)
      (by show (1 : ℚ) - (0 : ℚ) < cooldown_duration; norm_num [cooldown_duration]),
   (cooldown_debounce_subsequence.1 (fun _ => false) false false none ⟨0⟩ 0
      [LoopInput.frame [] 1 (.ok 0)]).1⟩

/-- C6 (counterexample): with a debug recording active, a write failure on
the first frame's first sample is logged and nothing of that frame is
written — but the writer stays installed, so the next frame IS written to
the recording (here `[7]`), contradicting the claim that all further debug
writes for the session are disabled after a failure; detection still
processes both frames. -/
theorem debug_write_failure_counterexample :
    (listen_loop (fun n => n == 0) true false none ⟨0⟩ 0
      [LoopInput.frame [5] 100 (.ok (-1)), LoopInput.frame [7] 101 (.ok (-1))]).written
        = [7] ∧
    (listen_loop (fun n => n == 0) true false none ⟨0⟩ 0
      [LoopInput.frame [5] 100 (.ok (-1)), LoopInput.frame [7] 101 (.ok (-1))]).write_error_logs
        = 1 ∧
    (listen_loop (fun n => n == 0) true false none ⟨0⟩ 0
      [LoopInput.frame [5] 100 (.ok (-1)), LoopInput.frame [7] 101 (.ok (-1))]).processed
        = [[5], [7]] ∧
    ([7] : List ℤ) ≠ [] := by
  decide

/-- The frames handed to the engine and the events emitted by the Listening
loop do not depend on the debug recording: any write-failure oracle, any
attempt counter and even disabling the recording altogether leave both
unchanged. -/
theorem listen_loop_detection_independent_of_debug :
    ∀ (inputs : List LoopInput) (iof iof' : Nat → Bool) (da da' cm : Bool)
      (ek : Option String) (st : DetectionState) (att att' : Nat),
      (listen_loop iof da cm ek st att inputs).processed
        = (listen_loop iof' da' cm ek st att' inputs).processed ∧
      (listen_loop iof da cm ek st att inputs).emitted
        = (listen_loop iof' da' cm ek st att' inputs).emitted := by
  intro inputs
  induction inputs with
  | nil => intro iof iof' da da' cm ek st att att'; exact ⟨rfl, rfl⟩
  | cons i rest ih =>
    intro iof iof' da da' cm ek st att att'
    cases i with
    | stop => exact ⟨rfl, rfl⟩
    | disconnect => exact ⟨rfl, rfl⟩
    | timeout =>
      simpa only [listen_loop] using ih iof iof' da da' cm ek st att att'
    | frame f now res =>
      cases res with
      | error e =>
        obtain ⟨h1, h2⟩ := ih iof iof' da da' cm ek st
          (if da then write_frame iof att f else ([], att, false)).2.1
          (if da' then write_frame iof' att' f else ([], att', false)).2.1
        exact ⟨by simp only [listen_loop]; rw [h1], by simp only [listen_loop]; rw [h2]⟩
      | ok k =>
        obtain ⟨h1, h2⟩ := ih iof iof' da da' cm ek (process_detection st now k).1
          (if da then write_frame iof att f else ([], att, false)).2.1
          (if da' then write_frame iof' att' f else ([], att', false)).2.1
        exact ⟨by simp only [listen_loop]; rw [h1], by simp only [listen_loop]; rw [h2]⟩

/-- C6 (amended): a failed debug write is logged and aborts only the
remainder of the current frame (nothing of the frame from the failing
sample on is written); the writer remains installed, so the following
frames are attempted again through `write_frame`; and detection — the
frames handed to the engine and the events emitted — is entirely
unaffected by debug-write failures or by the recording being active at
all. -/
theorem debug_write_failure_skips_frame_only :
    (∀ (iof : Nat → Bool) (att : Nat) (s : ℤ) (rest : List ℤ),
      iof att = true → write_frame iof att (s :: rest) = ([], att + 1, true)) ∧
    (∀ (iof : Nat → Bool) (cm : Bool) (ek : Option String) (st : DetectionState)
        (att : Nat) (f : List ℤ) (now : ℚ) (k : ℤ) (rest : List LoopInput),
      (listen_loop iof true cm ek st att (LoopInput.frame f now (.ok k) :: rest)).written
        = (write_frame iof att f).1
          ++ (listen_loop iof true cm ek (process_detection st now k).1
              (write_frame iof att f).2.1 rest).written) ∧
    (∀ (inputs : List LoopInput) (iof iof' : Nat → Bool) (da da' cm : Bool)
        (ek : Option String) (st : DetectionState) (att att' : Nat),
      (listen_loop iof da cm ek st att inputs).processed
        = (listen_loop iof' da' cm ek st att' inputs).processed ∧
      (listen_loop iof da cm ek st att inputs).emitted
        = (listen_loop iof' da' cm ek st att' inputs).emitted) := by
  refine ⟨?_, ?_, listen_loop_detection_independent_of_debug⟩
  · intro iof att s rest h
    rw [write_frame, if_pos h]
  · intro iof cm ek st att f now k rest
    simp [listen_loop]

/-- Witness for `debug_write_failure_skips_frame_only` at concrete inputs. -/
theorem debug_write_failure_skips_frame_only_witness :
    write_frame (fun _ => true) 0 [9, 9] = ([], 1, true) ∧
    (listen_loop (fun _ => true) true false none ⟨0⟩ 0
        [LoopInput.frame [9] 5 (.ok (-1))]).written
      = (write_frame (fun _ => true) 0 [9]).1
        ++ (listen_loop (fun _ => true) true false none
            (process_detection ⟨0⟩ 5 (-1)).1
            (write_frame (fun _ => true) 0 [9]).2.1 []).written :=
  ⟨debug_write_failure_skips_frame_only.1 (fun _ => true) 0 9 [9] rfl,
   debug_write_failure_skips_frame_only.2.1 (fun _ => true) false none ⟨0⟩ 0 [9] 5 (-1) []⟩

/-- Witness for `framer_full_frames_no_loss_quantized` at concrete inputs. -/
theorem framer_full_frames_no_loss_quantized_witness :
    (List.replicate 512 (0 : ℚ)).length = PORCUPINE_FRAME_LENGTH ∧
    -32767 ≤ quantize (1 / 2) ∧ quantize (1 / 2) ≤ 32767 :=
  ⟨(framer_full_frames_no_loss_quantized.1 [] (List.replicate 512 0)).1
      (List.replicate 512 0) (by set_option maxRecDepth 100000 in decide),
   (framer_full_frames_no_loss_quantized.2.2.2 (1 / 2)).2.1,
   (framer_full_frames_no_loss_quantized.2.2.2 (1 / 2)).2.2⟩

end EvaDesktop
